import Mathlib

/-!
Verification of the typed data-modeling layer of `pydantic-api-models-notion`:
the polymorphic page-property discriminated union, its encode/decode pair,
the generic pagination envelope, and the comment request models.

Shallow embedding conventions:
* JSON values are modeled by the inductive `JSON` (numbers are exact
  rationals, since the source performs no arithmetic on them).
* Each pydantic model class becomes a Lean structure with the same field
  names; a `Literal["…"]` discriminator field is represented by the
  constructor of the corresponding sum type and is re-emitted on encode.
* Validation (`Model.model_validate`) becomes a `decode` function returning
  `Except DecodeError α`; serialization (`model_dump`) becomes `encode`.
  Optional fields serialize as explicit `null` (pydantic's default dump) and
  decode from an absent key or `null` to `none`.
* Scalar formats whose parsing lives entirely in the external pydantic
  library (ISO-8601 datetimes, UUIDs, emails, URLs) are idealized as plain
  strings; ISO-8601 UTC timestamps compare chronologically via the
  lexicographic string order.
-/

/-- The JSON value model: the raw wire values handed to / produced by the
validation layer. -/
inductive JSON where
  | null
  | bool (b : Bool)
  | num (q : Rat)
  | str (s : String)
  | arr (elems : List JSON)
  | obj (fields : List (String × JSON))
  deriving Repr

/-- Error taxonomy of the validation layer: an unregistered discriminator
value, a missing/ill-shaped field, or a factory invariant failure. -/
inductive DecodeError where
  | unknownVariant
  | shapeMismatch
  | invariantViolation
  deriving Repr, DecidableEq

abbrev DecodeResult (α : Type) := Except DecodeError α

/-- First-match association-list lookup, modeling JSON-object key access
(and the tag → variant-schema dispatch table). -/
def assocLookup (k : String) : List (String × α) → Option α
  | [] => none
  | (k', v) :: rest => if k' = k then some v else assocLookup k rest

/-- ISO-8601 timestamps, idealized as their string representation (parsing
and printing are delegated to the external pydantic `datetime` codec). -/
abbrev Datetime := String

def decodeBool : JSON → DecodeResult Bool
  | .bool b => .ok b
  | _ => .error .shapeMismatch

def decodeStr : JSON → DecodeResult String
  | .str s => .ok s
  | _ => .error .shapeMismatch

def decodeNum : JSON → DecodeResult Rat
  | .num q => .ok q
  | _ => .error .shapeMismatch

/-- Encoding of a Python `int` as a JSON number. -/
def encodeInt (n : Int) : JSON := .num (Rat.ofInt n)

def decodeInt : JSON → DecodeResult Int
  | .num q => if q.den = 1 then .ok q.num else .error .shapeMismatch
  | _ => .error .shapeMismatch

/-- A required model field: absent key is a `ShapeMismatch`. -/
def reqField (f : List (String × JSON)) (k : String) (dec : JSON → DecodeResult α) :
    DecodeResult α :=
  match assocLookup k f with
  | none => .error .shapeMismatch
  | some j => dec j

/-- An `Optional[...] = None` model field: absent key or `null` decodes to
`none`. -/
def optField (f : List (String × JSON)) (k : String) (dec : JSON → DecodeResult α) :
    DecodeResult (Option α) :=
  match assocLookup k f with
  | none => .ok none
  | some .null => .ok none
  | some j => (dec j).map some

/-- Serialization of an optional field: `None` dumps as explicit `null`. -/
def encodeOpt (enc : α → JSON) : Option α → JSON
  | none => .null
  | some a => enc a

/-- Element-wise decoding of a JSON array, failing on the first bad
element. -/
def mapDecode (dec : JSON → DecodeResult α) : List JSON → DecodeResult (List α)
  | [] => .ok []
  | x :: xs =>
    match dec x with
    | .error e => .error e
    | .ok a =>
      match mapDecode dec xs with
      | .error e => .error e
      | .ok rest => .ok (a :: rest)

/-- A `list[...]` model field must be a JSON array. -/
def decodeArr (dec : JSON → DecodeResult α) : JSON → DecodeResult (List α)
  | .arr xs => mapDecode dec xs
  | _ => .error .shapeMismatch

/-- Modelled from the spec: `ColorLiteral` from the missing
`properties/common.py` — the enum of option colors ("enum membership for
colors"), defaulting to `"default"`. -/
inductive ColorLiteral where
  | default | gray | brown | orange | yellow | green | blue | purple | pink | red
  deriving Repr, DecidableEq

def ColorLiteral.toWire : ColorLiteral → String
  | .default => "default"
  | .gray => "gray"
  | .brown => "brown"
  | .orange => "orange"
  | .yellow => "yellow"
  | .green => "green"
  | .blue => "blue"
  | .purple => "purple"
  | .pink => "pink"
  | .red => "red"

def decodeColorLiteral : JSON → DecodeResult ColorLiteral
  | .str "default" => .ok .default
  | .str "gray" => .ok .gray
  | .str "brown" => .ok .brown
  | .str "orange" => .ok .orange
  | .str "yellow" => .ok .yellow
  | .str "green" => .ok .green
  | .str "blue" => .ok .blue
  | .str "purple" => .ok .purple
  | .str "pink" => .ok .pink
  | .str "red" => .ok .red
  | _ => .error .shapeMismatch

/-- Modelled from the spec: `VerificationStateLiteral` from the missing
`properties/common.py` — whether a page is verified. -/
inductive VerificationStateLiteral where
  | verified | unverified | expired
  deriving Repr, DecidableEq

def VerificationStateLiteral.toWire : VerificationStateLiteral → String
  | .verified => "verified"
  | .unverified => "unverified"
  | .expired => "expired"

def decodeVerificationState : JSON → DecodeResult VerificationStateLiteral
  | .str "verified" => .ok .verified
  | .str "unverified" => .ok .unverified
  | .str "expired" => .ok .expired
  | _ => .error .shapeMismatch

/-- Modelled from the spec: `RollupFunctionLiteral` from the missing
`properties/common.py` — the enum of rollup aggregation function names
(includes `"sum"`). -/
inductive RollupFunctionLiteral where
  | count | count_values | empty | not_empty | unique | show_unique
  | percent_empty | percent_not_empty | sum | average | median | min | max
  | range | earliest_date | latest_date | date_range | checked | unchecked
  | percent_checked | percent_unchecked | show_original
  deriving Repr, DecidableEq

def RollupFunctionLiteral.toWire : RollupFunctionLiteral → String
  | .count => "count"
  | .count_values => "count_values"
  | .empty => "empty"
  | .not_empty => "not_empty"
  | .unique => "unique"
  | .show_unique => "show_unique"
  | .percent_empty => "percent_empty"
  | .percent_not_empty => "percent_not_empty"
  | .sum => "sum"
  | .average => "average"
  | .median => "median"
  | .min => "min"
  | .max => "max"
  | .range => "range"
  | .earliest_date => "earliest_date"
  | .latest_date => "latest_date"
  | .date_range => "date_range"
  | .checked => "checked"
  | .unchecked => "unchecked"
  | .percent_checked => "percent_checked"
  | .percent_unchecked => "percent_unchecked"
  | .show_original => "show_original"

def decodeRollupFunction : JSON → DecodeResult RollupFunctionLiteral
  | .str "count" => .ok .count
  | .str "count_values" => .ok .count_values
  | .str "empty" => .ok .empty
  | .str "not_empty" => .ok .not_empty
  | .str "unique" => .ok .unique
  | .str "show_unique" => .ok .show_unique
  | .str "percent_empty" => .ok .percent_empty
  | .str "percent_not_empty" => .ok .percent_not_empty
  | .str "sum" => .ok .sum
  | .str "average" => .ok .average
  | .str "median" => .ok .median
  | .str "min" => .ok .min
  | .str "max" => .ok .max
  | .str "range" => .ok .range
  | .str "earliest_date" => .ok .earliest_date
  | .str "latest_date" => .ok .latest_date
  | .str "date_range" => .ok .date_range
  | .str "checked" => .ok .checked
  | .str "unchecked" => .ok .unchecked
  | .str "percent_checked" => .ok .percent_checked
  | .str "percent_unchecked" => .ok .percent_unchecked
  | .str "show_original" => .ok .show_original
  | _ => .error .shapeMismatch

/-- Modelled from the spec: `UserObject` from the missing `objects/user.py` —
a user reference, carrying the stable identifier (UUID idealized as a
string). -/
structure UserObject where
  id : String
  deriving Repr, DecidableEq

def UserObject.encode : UserObject → JSON
  | ⟨i⟩ => .obj [("object", .str "user"), ("id", .str i)]

def UserObject.decode : JSON → DecodeResult UserObject
  | .obj f => (reqField f "id" decodeStr).map (⟨·⟩)
  | _ => .error .shapeMismatch

/-- Modelled from the spec: `FileObject` from the missing `objects/file.py` —
a two-case union: an external URL, or a hosted file with an expiry time. -/
inductive FileObject where
  | external (name : String) (url : String)
  | file (name : String) (url : String) (expiry_time : Datetime)
  deriving Repr, DecidableEq

def FileObject.encode : FileObject → JSON
  | .external name url =>
    .obj [("name", .str name), ("type", .str "external"),
          ("external", .obj [("url", .str url)])]
  | .file name url expiry =>
    .obj [("name", .str name), ("type", .str "file"),
          ("file", .obj [("url", .str url), ("expiry_time", .str expiry)])]

def FileObject.decode : JSON → DecodeResult FileObject
  | .obj f =>
    match assocLookup "type" f with
    | some (.str "external") => do
      let name ← reqField f "name" decodeStr
      let inner ← reqField f "external" (fun j =>
        match j with
        | .obj g => reqField g "url" decodeStr
        | _ => .error .shapeMismatch)
      return .external name inner
    | some (.str "file") => do
      let name ← reqField f "name" decodeStr
      match assocLookup "file" f with
      | some (.obj g) => do
        let url ← reqField g "url" decodeStr
        let expiry ← reqField g "expiry_time" decodeStr
        return .file name url expiry
      | some _ => .error .shapeMismatch
      | none => .error .shapeMismatch
    | some _ => .error .unknownVariant
    | none => .error .shapeMismatch
  | _ => .error .shapeMismatch

/-- Modelled from the spec: `RichTextObject` from the missing
`objects/block.py` — a plain-text rich-text span (`type: "text"`) with a
content string and an optional link. -/
structure RichTextObject where
  content : String
  link : Option String := none
  deriving Repr, DecidableEq

def RichTextObject.encode : RichTextObject → JSON
  | ⟨c, l⟩ =>
    .obj [("type", .str "text"),
          ("text", .obj [("content", .str c), ("link", encodeOpt .str l)])]

def RichTextObject.decode : JSON → DecodeResult RichTextObject
  | .obj f =>
    match assocLookup "type" f with
    | some (.str "text") =>
      match assocLookup "text" f with
      | some (.obj g) => do
        let c ← reqField g "content" decodeStr
        let l ← optField g "link" decodeStr
        return ⟨c, l⟩
      | some _ => .error .shapeMismatch
      | none => .error .shapeMismatch
    | some _ => .error .unknownVariant
    | none => .error .shapeMismatch
  | _ => .error .shapeMismatch

/-- Modelled from the spec: `RichTextObjectFactory.new_text` from the missing
`objects/block.py` — wraps a plain string as one rich-text span with no
annotations or links. -/
def RichTextObjectFactory.new_text (content : String) : RichTextObject :=
  { content := content, link := none }

/-- Modelled from the spec: `SelectOption` from the missing
`properties/common.py` — name (required), color (enum, optional), id
(server-assigned, optional). -/
structure SelectOption where
  name : String
  color : Option ColorLiteral := none
  id : Option String := none
  deriving Repr, DecidableEq

def SelectOption.encode : SelectOption → JSON
  | ⟨n, c, i⟩ =>
    .obj [("id", encodeOpt .str i), ("name", .str n),
          ("color", encodeOpt (fun x => .str x.toWire) c)]

def SelectOption.decode : JSON → DecodeResult SelectOption
  | .obj f => do
    let i ← optField f "id" decodeStr
    let n ← reqField f "name" decodeStr
    let c ← optField f "color" decodeColorLiteral
    return ⟨n, c, i⟩
  | _ => .error .shapeMismatch

/-- Modelled from the spec: `StatusOption` from the missing
`properties/common.py` — same shape as `SelectOption`. -/
structure StatusOption where
  name : String
  color : Option ColorLiteral := none
  id : Option String := none
  deriving Repr, DecidableEq

def StatusOption.encode : StatusOption → JSON
  | ⟨n, c, i⟩ =>
    .obj [("id", encodeOpt .str i), ("name", .str n),
          ("color", encodeOpt (fun x => .str x.toWire) c)]

def StatusOption.decode : JSON → DecodeResult StatusOption
  | .obj f => do
    let i ← optField f "id" decodeStr
    let n ← reqField f "name" decodeStr
    let c ← optField f "color" decodeColorLiteral
    return ⟨n, c, i⟩
  | _ => .error .shapeMismatch

/-- `DateValue`: the value of a date property — required `start`, optional
`end` (absence means a single point in time), optional advisory
`time_zone`. -/
structure DateValue where
  start : Datetime
  «end» : Option Datetime := none
  time_zone : Option String := none
  deriving Repr, DecidableEq

def DateValue.encode : DateValue → JSON
  | ⟨s, e, tz⟩ =>
    .obj [("start", .str s), ("end", encodeOpt .str e),
          ("time_zone", encodeOpt .str tz)]

def DateValue.decode : JSON → DecodeResult DateValue
  | .obj f => do
    let s ← reqField f "start" decodeStr
    let e ← optField f "end" decodeStr
    let tz ← optField f "time_zone" decodeStr
    return ⟨s, e, tz⟩
  | _ => .error .shapeMismatch

/-- `UniqueIDData`: the auto-incrementing ID count with an optional prefix
string. The source names the second field `prefix`; that is a reserved
keyword here, so it is carried as `idPrefix` (same wire key `"prefix"`). -/
structure UniqueIDData where
  number : Int
  idPrefix : Option String := none
  deriving Repr, DecidableEq

def UniqueIDData.encode : UniqueIDData → JSON
  | ⟨n, p⟩ => .obj [("number", encodeInt n), ("prefix", encodeOpt .str p)]

def UniqueIDData.decode : JSON → DecodeResult UniqueIDData
  | .obj f => do
    let n ← reqField f "number" decodeInt
    let p ← optField f "prefix" decodeStr
    return ⟨n, p⟩
  | _ => .error .shapeMismatch

/-- `VerificationData`: verification state plus optional verifying user and
optional verification date range. -/
structure VerificationData where
  state : VerificationStateLiteral
  verified_by : Option UserObject := none
  date : Option DateValue := none
  deriving Repr, DecidableEq

def VerificationData.encode : VerificationData → JSON
  | ⟨s, vb, d⟩ =>
    .obj [("state", .str s.toWire), ("verified_by", encodeOpt UserObject.encode vb),
          ("date", encodeOpt DateValue.encode d)]

def VerificationData.decode : JSON → DecodeResult VerificationData
  | .obj f => do
    let s ← reqField f "state" decodeVerificationState
    let vb ← optField f "verified_by" UserObject.decode
    let d ← optField f "date" DateValue.decode
    return ⟨s, vb, d⟩
  | _ => .error .shapeMismatch

/-- `PageReference`: the id (UUID idealized as a string) of a page referenced
by a relation property. -/
structure PageReference where
  id : String
  deriving Repr, DecidableEq

def PageReference.encode : PageReference → JSON
  | ⟨i⟩ => .obj [("id", .str i)]

def PageReference.decode : JSON → DecodeResult PageReference
  | .obj f => (reqField f "id" decodeStr).map (⟨·⟩)
  | _ => .error .shapeMismatch

/-- `FormulaData`: the nested discriminated union of formula results
(`boolean` / `date` / `number` / `string`), each case a struct with the
fixed inner `type` tag and the same-named payload field. -/
inductive FormulaData where
  | boolean (b : Bool)
  | date (d : DateValue)
  | number (n : Rat)
  | string (s : String)
  deriving Repr, DecidableEq

def FormulaData.encode : FormulaData → JSON
  | .boolean b => .obj [("type", .str "boolean"), ("boolean", .bool b)]
  | .date d => .obj [("type", .str "date"), ("date", d.encode)]
  | .number n => .obj [("type", .str "number"), ("number", .num n)]
  | .string s => .obj [("type", .str "string"), ("string", .str s)]

def FormulaData.decode : JSON → DecodeResult FormulaData
  | .obj f =>
    match assocLookup "type" f with
    | some (.str "boolean") => (reqField f "boolean" decodeBool).map .boolean
    | some (.str "date") => (reqField f "date" DateValue.decode).map .date
    | some (.str "number") => (reqField f "number" decodeNum).map .number
    | some (.str "string") => (reqField f "string" decodeStr).map .string
    | some (.str _) => .error .unknownVariant
    | some _ => .error .unknownVariant
    | none => .error .shapeMismatch
  | _ => .error .shapeMismatch

/-- `RollupData`: the nested discriminated union of rollup results. Every
case carries the aggregating `function` (from `BaseRollupData`); the
`array` / `incomplete` / `unsupported` cases carry no further modeled
payload. -/
inductive RollupData where
  | date (function : RollupFunctionLiteral) (date : DateValue)
  | number (function : RollupFunctionLiteral) (number : Rat)
  | array (function : RollupFunctionLiteral)
  | incomplete (function : RollupFunctionLiteral)
  | unsupported (function : RollupFunctionLiteral)
  deriving Repr, DecidableEq

def RollupData.encode : RollupData → JSON
  | .date fn d =>
    .obj [("type", .str "date"), ("function", .str fn.toWire), ("date", d.encode)]
  | .number fn n =>
    .obj [("type", .str "number"), ("function", .str fn.toWire), ("number", .num n)]
  | .array fn => .obj [("type", .str "array"), ("function", .str fn.toWire)]
  | .incomplete fn => .obj [("type", .str "incomplete"), ("function", .str fn.toWire)]
  | .unsupported fn => .obj [("type", .str "unsupported"), ("function", .str fn.toWire)]

def RollupData.decode : JSON → DecodeResult RollupData
  | .obj f =>
    match assocLookup "type" f with
    | some (.str "date") => do
      let fn ← reqField f "function" decodeRollupFunction
      let d ← reqField f "date" DateValue.decode
      return .date fn d
    | some (.str "number") => do
      let fn ← reqField f "function" decodeRollupFunction
      let n ← reqField f "number" decodeNum
      return .number fn n
    | some (.str "array") => (reqField f "function" decodeRollupFunction).map .array
    | some (.str "incomplete") =>
      (reqField f "function" decodeRollupFunction).map .incomplete
    | some (.str "unsupported") =>
      (reqField f "function" decodeRollupFunction).map .unsupported
    | some (.str _) => .error .unknownVariant
    | some _ => .error .unknownVariant
    | none => .error .shapeMismatch
  | _ => .error .shapeMismatch

structure CheckboxProperty where
  id : Option String := none
  checkbox : Bool
  deriving Repr, DecidableEq

def CheckboxProperty.encode (p : CheckboxProperty) : JSON :=
  .obj [("id", encodeOpt .str p.id), ("type", .str "checkbox"),
        ("checkbox", .bool p.checkbox)]

def CheckboxProperty.decodeFields (f : List (String × JSON)) :
    DecodeResult CheckboxProperty := do
  let i ← optField f "id" decodeStr
  let b ← reqField f "checkbox" decodeBool
  return { id := i, checkbox := b }

structure CreatedByProperty where
  id : Option String := none
  created_by : UserObject
  deriving Repr, DecidableEq

def CreatedByProperty.encode (p : CreatedByProperty) : JSON :=
  .obj [("id", encodeOpt .str p.id), ("type", .str "created_by"),
        ("created_by", p.created_by.encode)]

def CreatedByProperty.decodeFields (f : List (String × JSON)) :
    DecodeResult CreatedByProperty := do
  let i ← optField f "id" decodeStr
  let u ← reqField f "created_by" UserObject.decode
  return { id := i, created_by := u }

structure CreatedTimeProperty where
  id : Option String := none
  created_time : Datetime
  deriving Repr, DecidableEq

def CreatedTimeProperty.encode (p : CreatedTimeProperty) : JSON :=
  .obj [("id", encodeOpt .str p.id), ("type", .str "created_time"),
        ("created_time", .str p.created_time)]

def CreatedTimeProperty.decodeFields (f : List (String × JSON)) :
    DecodeResult CreatedTimeProperty := do
  let i ← optField f "id" decodeStr
  let t ← reqField f "created_time" decodeStr
  return { id := i, created_time := t }

structure DateProperty where
  id : Option String := none
  date : DateValue
  deriving Repr, DecidableEq

def DateProperty.encode (p : DateProperty) : JSON :=
  .obj [("id", encodeOpt .str p.id), ("type", .str "date"), ("date", p.date.encode)]

def DateProperty.decodeFields (f : List (String × JSON)) :
    DecodeResult DateProperty := do
  let i ← optField f "id" decodeStr
  let d ← reqField f "date" DateValue.decode
  return { id := i, date := d }

/-- The `DateProperty.new` factory: builds the property from
`(start, end?, time_zone?)` exactly as the source classmethod does —
`cls(date=DateValue(start=start, end=end, time_zone=time_zone))`. -/
def DateProperty.new (start : Datetime) (e : Option Datetime := none)
    (time_zone : Option String := none) : DateProperty :=
  { date := { start := start, «end» := e, time_zone := time_zone } }

structure EmailProperty where
  id : Option String := none
  email : String
  deriving Repr, DecidableEq

def EmailProperty.encode (p : EmailProperty) : JSON :=
  .obj [("id", encodeOpt .str p.id), ("type", .str "email"), ("email", .str p.email)]

def EmailProperty.decodeFields (f : List (String × JSON)) :
    DecodeResult EmailProperty := do
  let i ← optField f "id" decodeStr
  let e ← reqField f "email" decodeStr
  return { id := i, email := e }

structure FilesProperty where
  id : Option String := none
  files : List FileObject
  deriving Repr, DecidableEq

def FilesProperty.encode (p : FilesProperty) : JSON :=
  .obj [("id", encodeOpt .str p.id), ("type", .str "files"),
        ("files", .arr (p.files.map FileObject.encode))]

def FilesProperty.decodeFields (f : List (String × JSON)) :
    DecodeResult FilesProperty := do
  let i ← optField f "id" decodeStr
  let fs ← reqField f "files" (decodeArr FileObject.decode)
  return { id := i, files := fs }

structure LastEditedByProperty where
  id : Option String := none
  last_edited_by : UserObject
  deriving Repr, DecidableEq

def LastEditedByProperty.encode (p : LastEditedByProperty) : JSON :=
  .obj [("id", encodeOpt .str p.id), ("type", .str "last_edited_by"),
        ("last_edited_by", p.last_edited_by.encode)]

def LastEditedByProperty.decodeFields (f : List (String × JSON)) :
    DecodeResult LastEditedByProperty := do
  let i ← optField f "id" decodeStr
  let u ← reqField f "last_edited_by" UserObject.decode
  return { id := i, last_edited_by := u }

structure LastEditedTimeProperty where
  id : Option String := none
  last_edited_time : Datetime
  deriving Repr, DecidableEq

def LastEditedTimeProperty.encode (p : LastEditedTimeProperty) : JSON :=
  .obj [("id", encodeOpt .str p.id), ("type", .str "last_edited_time"),
        ("last_edited_time", .str p.last_edited_time)]

def LastEditedTimeProperty.decodeFields (f : List (String × JSON)) :
    DecodeResult LastEditedTimeProperty := do
  let i ← optField f "id" decodeStr
  let t ← reqField f "last_edited_time" decodeStr
  return { id := i, last_edited_time := t }

structure MultiSelectProperty where
  id : Option String := none
  multi_select : List SelectOption
  deriving Repr, DecidableEq

def MultiSelectProperty.encode (p : MultiSelectProperty) : JSON :=
  .obj [("id", encodeOpt .str p.id), ("type", .str "multi_select"),
        ("multi_select", .arr (p.multi_select.map SelectOption.encode))]

def MultiSelectProperty.decodeFields (f : List (String × JSON)) :
    DecodeResult MultiSelectProperty := do
  let i ← optField f "id" decodeStr
  let opts ← reqField f "multi_select" (decodeArr SelectOption.decode)
  return { id := i, multi_select := opts }

structure NumberProperty where
  id : Option String := none
  number : Rat
  deriving Repr, DecidableEq

def NumberProperty.encode (p : NumberProperty) : JSON :=
  .obj [("id", encodeOpt .str p.id), ("type", .str "number"), ("number", .num p.number)]

def NumberProperty.decodeFields (f : List (String × JSON)) :
    DecodeResult NumberProperty := do
  let i ← optField f "id" decodeStr
  let n ← reqField f "number" decodeNum
  return { id := i, number := n }

structure PeopleProperty where
  id : Option String := none
  people : List UserObject
  deriving Repr, DecidableEq

def PeopleProperty.encode (p : PeopleProperty) : JSON :=
  .obj [("id", encodeOpt .str p.id), ("type", .str "people"),
        ("people", .arr (p.people.map UserObject.encode))]

def PeopleProperty.decodeFields (f : List (String × JSON)) :
    DecodeResult PeopleProperty := do
  let i ← optField f "id" decodeStr
  let us ← reqField f "people" (decodeArr UserObject.decode)
  return { id := i, people := us }

structure PhoneNumberProperty where
  id : Option String := none
  phone_number : Option String := none
  deriving Repr, DecidableEq

def PhoneNumberProperty.encode (p : PhoneNumberProperty) : JSON :=
  .obj [("id", encodeOpt .str p.id), ("type", .str "phone_number"),
        ("phone_number", encodeOpt .str p.phone_number)]

def PhoneNumberProperty.decodeFields (f : List (String × JSON)) :
    DecodeResult PhoneNumberProperty := do
  let i ← optField f "id" decodeStr
  let n ← optField f "phone_number" decodeStr
  return { id := i, phone_number := n }

structure RichTextProperty where
  id : Option String := none
  rich_text : List RichTextObject
  deriving Repr, DecidableEq

def RichTextProperty.encode (p : RichTextProperty) : JSON :=
  .obj [("id", encodeOpt .str p.id), ("type", .str "rich_text"),
        ("rich_text", .arr (p.rich_text.map RichTextObject.encode))]

def RichTextProperty.decodeFields (f : List (String × JSON)) :
    DecodeResult RichTextProperty := do
  let i ← optField f "id" decodeStr
  let rt ← reqField f "rich_text" (decodeArr RichTextObject.decode)
  return { id := i, rich_text := rt }

structure SelectProperty where
  id : Option String := none
  select : SelectOption
  deriving Repr, DecidableEq

def SelectProperty.encode (p : SelectProperty) : JSON :=
  .obj [("id", encodeOpt .str p.id), ("type", .str "select"),
        ("select", p.select.encode)]

def SelectProperty.decodeFields (f : List (String × JSON)) :
    DecodeResult SelectProperty := do
  let i ← optField f "id" decodeStr
  let o ← reqField f "select" SelectOption.decode
  return { id := i, select := o }

structure StatusProperty where
  id : Option String := none
  status : StatusOption
  deriving Repr, DecidableEq

def StatusProperty.encode (p : StatusProperty) : JSON :=
  .obj [("id", encodeOpt .str p.id), ("type", .str "status"),
        ("status", p.status.encode)]

def StatusProperty.decodeFields (f : List (String × JSON)) :
    DecodeResult StatusProperty := do
  let i ← optField f "id" decodeStr
  let o ← reqField f "status" StatusOption.decode
  return { id := i, status := o }

structure TitleProperty where
  id : Option String := none
  title : List RichTextObject
  deriving Repr, DecidableEq

def TitleProperty.encode (p : TitleProperty) : JSON :=
  .obj [("id", encodeOpt .str p.id), ("type", .str "title"),
        ("title", .arr (p.title.map RichTextObject.encode))]

def TitleProperty.decodeFields (f : List (String × JSON)) :
    DecodeResult TitleProperty := do
  let i ← optField f "id" decodeStr
  let t ← reqField f "title" (decodeArr RichTextObject.decode)
  return { id := i, title := t }

/-- The `TitleProperty.new` factory: wraps a plain string as a single
rich-text span, exactly as the source classmethod does —
`cls(title=[RichTextObjectFactory.new_text(content=text)])`. -/
def TitleProperty.new (text : String) : TitleProperty :=
  { title := [RichTextObjectFactory.new_text text] }

structure URLProperty where
  id : Option String := none
  url : String
  deriving Repr, DecidableEq

def URLProperty.encode (p : URLProperty) : JSON :=
  .obj [("id", encodeOpt .str p.id), ("type", .str "url"), ("url", .str p.url)]

def URLProperty.decodeFields (f : List (String × JSON)) :
    DecodeResult URLProperty := do
  let i ← optField f "id" decodeStr
  let u ← reqField f "url" decodeStr
  return { id := i, url := u }

structure FormulaProperty where
  id : Option String := none
  formula : FormulaData
  deriving Repr, DecidableEq

def FormulaProperty.encode (p : FormulaProperty) : JSON :=
  .obj [("id", encodeOpt .str p.id), ("type", .str "formula"),
        ("formula", p.formula.encode)]

def FormulaProperty.decodeFields (f : List (String × JSON)) :
    DecodeResult FormulaProperty := do
  let i ← optField f "id" decodeStr
  let fd ← reqField f "formula" FormulaData.decode
  return { id := i, formula := fd }

structure RelationProperty where
  id : Option String := none
  relation : List PageReference
  has_more : Option Bool := none
  deriving Repr, DecidableEq

def RelationProperty.encode (p : RelationProperty) : JSON :=
  .obj [("id", encodeOpt .str p.id), ("type", .str "relation"),
        ("relation", .arr (p.relation.map PageReference.encode)),
        ("has_more", encodeOpt .bool p.has_more)]

def RelationProperty.decodeFields (f : List (String × JSON)) :
    DecodeResult RelationProperty := do
  let i ← optField f "id" decodeStr
  let rs ← reqField f "relation" (decodeArr PageReference.decode)
  let hm ← optField f "has_more" decodeBool
  return { id := i, relation := rs, has_more := hm }

structure RollupProperty where
  id : Option String := none
  rollup : RollupData
  deriving Repr, DecidableEq

def RollupProperty.encode (p : RollupProperty) : JSON :=
  .obj [("id", encodeOpt .str p.id), ("type", .str "rollup"),
        ("rollup", p.rollup.encode)]

def RollupProperty.decodeFields (f : List (String × JSON)) :
    DecodeResult RollupProperty := do
  let i ← optField f "id" decodeStr
  let r ← reqField f "rollup" RollupData.decode
  return { id := i, rollup := r }

structure UniqueIDProperty where
  id : Option String := none
  unique_id : UniqueIDData
  deriving Repr, DecidableEq

def UniqueIDProperty.encode (p : UniqueIDProperty) : JSON :=
  .obj [("id", encodeOpt .str p.id), ("type", .str "unique_id"),
        ("unique_id", p.unique_id.encode)]

def UniqueIDProperty.decodeFields (f : List (String × JSON)) :
    DecodeResult UniqueIDProperty := do
  let i ← optField f "id" decodeStr
  let u ← reqField f "unique_id" UniqueIDData.decode
  return { id := i, unique_id := u }

structure VerificationProperty where
  id : Option String := none
  verification : VerificationData
  deriving Repr, DecidableEq

def VerificationProperty.encode (p : VerificationProperty) : JSON :=
  .obj [("id", encodeOpt .str p.id), ("type", .str "verification"),
        ("verification", p.verification.encode)]

def VerificationProperty.decodeFields (f : List (String × JSON)) :
    DecodeResult VerificationProperty := do
  let i ← optField f "id" decodeStr
  let v ← reqField f "verification" VerificationData.decode
  return { id := i, verification := v }

/-! ## The `PageProperty` discriminated union -/

/-- `PageProperty`: the tag-discriminated union of all property variants,
in the source's union member order. -/
inductive PageProperty where
  | checkbox (p : CheckboxProperty)
  | created_by (p : CreatedByProperty)
  | created_time (p : CreatedTimeProperty)
  | date (p : DateProperty)
  | email (p : EmailProperty)
  | files (p : FilesProperty)
  | last_edited_by (p : LastEditedByProperty)
  | last_edited_time (p : LastEditedTimeProperty)
  | multi_select (p : MultiSelectProperty)
  | number (p : NumberProperty)
  | people (p : PeopleProperty)
  | phone_number (p : PhoneNumberProperty)
  | rich_text (p : RichTextProperty)
  | select (p : SelectProperty)
  | status (p : StatusProperty)
  | title (p : TitleProperty)
  | url (p : URLProperty)
  | formula (p : FormulaProperty)
  | relation (p : RelationProperty)
  | rollup (p : RollupProperty)
  | unique_id (p : UniqueIDProperty)
  | verification (p : VerificationProperty)
  deriving Repr, DecidableEq

/-- The fixed discriminator tag of a variant. -/
def PageProperty.tag : PageProperty → String
  | .checkbox _ => "checkbox"
  | .created_by _ => "created_by"
  | .created_time _ => "created_time"
  | .date _ => "date"
  | .email _ => "email"
  | .files _ => "files"
  | .last_edited_by _ => "last_edited_by"
  | .last_edited_time _ => "last_edited_time"
  | .multi_select _ => "multi_select"
  | .number _ => "number"
  | .people _ => "people"
  | .phone_number _ => "phone_number"
  | .rich_text _ => "rich_text"
  | .select _ => "select"
  | .status _ => "status"
  | .title _ => "title"
  | .url _ => "url"
  | .formula _ => "formula"
  | .relation _ => "relation"
  | .rollup _ => "rollup"
  | .unique_id _ => "unique_id"
  | .verification _ => "verification"

/-- Serialization of a page property: dispatches to the variant's encoder,
which always re-emits the discriminator key. -/
def PageProperty.encode : PageProperty → JSON
  | .checkbox p => p.encode
  | .created_by p => p.encode
  | .created_time p => p.encode
  | .date p => p.encode
  | .email p => p.encode
  | .files p => p.encode
  | .last_edited_by p => p.encode
  | .last_edited_time p => p.encode
  | .multi_select p => p.encode
  | .number p => p.encode
  | .people p => p.encode
  | .phone_number p => p.encode
  | .rich_text p => p.encode
  | .select p => p.encode
  | .status p => p.encode
  | .title p => p.encode
  | .url p => p.encode
  | .formula p => p.encode
  | .relation p => p.encode
  | .rollup p => p.encode
  | .unique_id p => p.encode
  | .verification p => p.encode

/-- The tag → variant-schema dispatch table of the discriminated-union
engine, one entry per union member, in the source's union order. -/
def propertyRegistry : List (String × (List (String × JSON) → DecodeResult PageProperty)) :=
  [("checkbox", fun f => (CheckboxProperty.decodeFields f).map .checkbox),
   ("created_by", fun f => (CreatedByProperty.decodeFields f).map .created_by),
   ("created_time", fun f => (CreatedTimeProperty.decodeFields f).map .created_time),
   ("date", fun f => (DateProperty.decodeFields f).map .date),
   ("email", fun f => (EmailProperty.decodeFields f).map .email),
   ("files", fun f => (FilesProperty.decodeFields f).map .files),
   ("last_edited_by", fun f => (LastEditedByProperty.decodeFields f).map .last_edited_by),
   ("last_edited_time", fun f => (LastEditedTimeProperty.decodeFields f).map .last_edited_time),
   ("multi_select", fun f => (MultiSelectProperty.decodeFields f).map .multi_select),
   ("number", fun f => (NumberProperty.decodeFields f).map .number),
   ("people", fun f => (PeopleProperty.decodeFields f).map .people),
   ("phone_number", fun f => (PhoneNumberProperty.decodeFields f).map .phone_number),
   ("rich_text", fun f => (RichTextProperty.decodeFields f).map .rich_text),
   ("select", fun f => (SelectProperty.decodeFields f).map .select),
   ("status", fun f => (StatusProperty.decodeFields f).map .status),
   ("title", fun f => (TitleProperty.decodeFields f).map .title),
   ("url", fun f => (URLProperty.decodeFields f).map .url),
   ("formula", fun f => (FormulaProperty.decodeFields f).map .formula),
   ("relation", fun f => (RelationProperty.decodeFields f).map .relation),
   ("rollup", fun f => (RollupProperty.decodeFields f).map .rollup),
   ("unique_id", fun f => (UniqueIDProperty.decodeFields f).map .unique_id),
   ("verification", fun f => (VerificationProperty.decodeFields f).map .verification)]

/-- The registered discriminator values. -/
def pagePropertyTags : List String := propertyRegistry.map Prod.fst

/-- Validation of a raw JSON object as a `PageProperty`: read the
discriminator key, look up the variant whose tag equals that value, and
validate the object against that variant's field schema. An unregistered
tag is an `UnknownVariant`; a missing tag (or a non-object) is a
`ShapeMismatch`. -/
def decodePageProperty : JSON → DecodeResult PageProperty
  | .obj f =>
    match assocLookup "type" f with
    | some (.str t) =>
      match assocLookup t propertyRegistry with
      | some d => d f
      | none => .error .unknownVariant
    | some _ => .error .unknownVariant
    | none => .error .shapeMismatch
  | _ => .error .shapeMismatch

/-- `NotionPaginatedDataTypeLiteral`: the element kind named by the
envelope's `type` discriminator. -/
inductive NotionPaginatedDataTypeLiteral where
  | block | comment | database | page | page_or_database | property_item | user
  deriving Repr, DecidableEq

def decodePaginatedTypeLiteral : JSON → DecodeResult NotionPaginatedDataTypeLiteral
  | .str "block" => .ok .block
  | .str "comment" => .ok .comment
  | .str "database" => .ok .database
  | .str "page" => .ok .page
  | .str "page_or_database" => .ok .page_or_database
  | .str "property_item" => .ok .property_item
  | .str "user" => .ok .user
  | _ => .error .shapeMismatch

/-- `NotionPaginatedData[TResult]`: the generic pagination envelope. The
`object` field is the constant `Literal["list"]` (checked on decode, not
stored); `request_id` is a UUID idealized as a string. -/
structure NotionPaginatedData (α : Type) where
  results : List α
  next_cursor : Option String := none
  has_more : Bool
  type : NotionPaginatedDataTypeLiteral
  request_id : String
  next_url : Option String := none
  deriving Repr, DecidableEq

/-- The `object: Literal["list"] = "list"` field: absent is fine (default),
present must equal `"list"`. -/
def checkObjectLiteral (f : List (String × JSON)) : DecodeResult Unit :=
  match assocLookup "object" f with
  | none => .ok ()
  | some (.str "list") => .ok ()
  | some _ => .error .shapeMismatch

/-- Envelope decoding, parametrized by the caller-supplied element decoder:
validates the envelope fields and decodes every entry of `results`. -/
def decodeNotionPaginatedData (dec : JSON → DecodeResult α) :
    JSON → DecodeResult (NotionPaginatedData α)
  | .obj f => do
    let _ ← checkObjectLiteral f
    let rs ← reqField f "results" (decodeArr dec)
    let nc ← optField f "next_cursor" decodeStr
    let hm ← reqField f "has_more" decodeBool
    let ty ← reqField f "type" decodePaginatedTypeLiteral
    let rid ← reqField f "request_id" decodeStr
    let nu ← optField f "next_url" decodeStr
    return { results := rs, next_cursor := nc, has_more := hm, type := ty,
             request_id := rid, next_url := nu }
  | _ => .error .shapeMismatch

/-- The shared `StartCursor` request field (`api/base.py`): an optional
opaque cursor string. -/
def decodeStartCursorField (f : List (String × JSON)) : DecodeResult (Option String) :=
  optField f "start_cursor" decodeStr

/-- The shared `PageSize` request field (`api/base.py`): an optional integer
constrained by `gt=0, le=100`. -/
def decodePageSizeField (f : List (String × JSON)) : DecodeResult (Option Int) :=
  match assocLookup "page_size" f with
  | none => .ok none
  | some .null => .ok none
  | some j =>
    match decodeInt j with
    | .error e => .error e
    | .ok n => if 0 < n ∧ n ≤ 100 then .ok (some n) else .error .shapeMismatch

/-! ## The comment request models

The repository defines the same-named models twice: once in
`api/comments.py` and once in `endpoints/comments.py`. Each module becomes
a namespace. -/

namespace ApiComments

/-- `CreateCommentRequest` from `api/comments.py`: only the two optional
pagination fields. -/
structure CreateCommentRequest where
  start_cursor : Option String := none
  page_size : Option Int := none
  deriving Repr, DecidableEq

def CreateCommentRequest.decode : JSON → DecodeResult CreateCommentRequest
  | .obj f => do
    let sc ← decodeStartCursorField f
    let ps ← decodePageSizeField f
    return { start_cursor := sc, page_size := ps }
  | _ => .error .shapeMismatch

/-- `RetrieveCommentsRequest` from `api/comments.py`: `block_id` is a plain
required string. -/
structure RetrieveCommentsRequest where
  block_id : String
  start_cursor : Option String := none
  page_size : Option Int := none
  deriving Repr, DecidableEq

def RetrieveCommentsRequest.decode : JSON → DecodeResult RetrieveCommentsRequest
  | .obj f => do
    let b ← reqField f "block_id" decodeStr
    let sc ← decodeStartCursorField f
    let ps ← decodePageSizeField f
    return { block_id := b, start_cursor := sc, page_size := ps }
  | _ => .error .shapeMismatch

end ApiComments

namespace EndpointsComments

/-- `CreateCommentRequest` from `endpoints/comments.py`: the two optional
pagination fields plus a **required** `rich_text` list. -/
structure CreateCommentRequest where
  start_cursor : Option String := none
  page_size : Option Int := none
  rich_text : List RichTextObject
  deriving Repr, DecidableEq

def CreateCommentRequest.decode : JSON → DecodeResult CreateCommentRequest
  | .obj f => do
    let sc ← decodeStartCursorField f
    let ps ← decodePageSizeField f
    let rt ← reqField f "rich_text" (decodeArr RichTextObject.decode)
    return { start_cursor := sc, page_size := ps, rich_text := rt }
  | _ => .error .shapeMismatch

/-- `RetrieveCommentsRequest` from `endpoints/comments.py`: `block_id` is a
required UUID (idealized as a string). -/
structure RetrieveCommentsRequest where
  block_id : String
  start_cursor : Option String := none
  page_size : Option Int := none
  deriving Repr, DecidableEq

def RetrieveCommentsRequest.decode : JSON → DecodeResult RetrieveCommentsRequest
  | .obj f => do
    let b ← reqField f "block_id" decodeStr
    let sc ← decodeStartCursorField f
    let ps ← decodePageSizeField f
    return { block_id := b, start_cursor := sc, page_size := ps }
  | _ => .error .shapeMismatch

end EndpointsComments

/-! ## Remaining helpers for the claim theorems -/

/-- Key access on a JSON value: `none` unless it is an object holding the
key. -/
def jsonGet (j : JSON) (k : String) : Option JSON :=
  match j with
  | .obj f => assocLookup k f
  | _ => none

/-- The payload used to refute the has_more/next_cursor claim: a
well-formed envelope whose `has_more` is `true` while `next_cursor` is
`null`. -/
def paginatedNullCursorPayload : JSON :=
  .obj [("object", .str "list"), ("results", .arr []), ("next_cursor", .null),
        ("has_more", .bool true), ("type", .str "page"),
        ("request_id", .str "6b0a7f1c-3a88-4bd9-9d51-4b0b5d43b6c1")]

/-! ## Claim theorems -/

/-- Chronological order on ISO-8601 UTC timestamps, which coincides with
lexicographic order on their character sequences. -/
def Datetime.before (a b : Datetime) : Prop := a.data < b.data

theorem mapDecode_map (dec : JSON → DecodeResult α) (enc : α → JSON)
    (h : ∀ a, dec (enc a) = .ok a) (l : List α) :
    mapDecode dec (l.map enc) = .ok l := by
  induction l with
  | nil => rfl
  | cons a rest ih => simp [mapDecode, h, ih]

theorem mapDecode_error_of_mem (dec : JSON → DecodeResult α) {xs : List JSON}
    {x : JSON} {e : DecodeError} (hx : x ∈ xs) (he : dec x = .error e) :
    ∃ e', mapDecode dec xs = .error e' := by
  induction xs with
  | nil => cases hx
  | cons a rest ih =>
    rcases List.mem_cons.mp hx with h | h
    · subst h
      exact ⟨e, by simp [mapDecode, he]⟩
    · match hda : dec a with
      | .error e₀ => exact ⟨e₀, by simp [mapDecode, hda]⟩
      | .ok b =>
        obtain ⟨e', h'⟩ := ih h
        exact ⟨e', by simp [mapDecode, hda, h']⟩

/-! ## Shared literal enums

`src/pydantic_api/notion/models/objects/properties/common.py` is not part of
the provided sources, so the literal alphabets below are modelled from the
spec where noted. -/

theorem decodeColorLiteral_toWire (c : ColorLiteral) :
    decodeColorLiteral (.str c.toWire) = .ok c := by cases c <;> rfl

theorem decodeVerificationState_toWire (s : VerificationStateLiteral) :
    decodeVerificationState (.str s.toWire) = .ok s := by cases s <;> rfl

theorem decodeRollupFunction_toWire (fn : RollupFunctionLiteral) :
    decodeRollupFunction (.str fn.toWire) = .ok fn := by cases fn <;> rfl

/-! ## Shared leaf value objects

`objects/user.py`, `objects/file.py`, `objects/block.py` and
`properties/common.py` are not part of the provided sources; the small value
objects below are modelled from the spec. -/

theorem userObject_rt (u : UserObject) : UserObject.decode u.encode = .ok u := rfl

theorem fileObject_rt (fo : FileObject) : FileObject.decode fo.encode = .ok fo := by
  cases fo <;> rfl

theorem richTextObject_rt (r : RichTextObject) : RichTextObject.decode r.encode = .ok r := by
  rcases r with ⟨c, _ | l⟩ <;> rfl

theorem selectOption_rt (o : SelectOption) : SelectOption.decode o.encode = .ok o := by
  rcases o with ⟨n, _ | c, _ | i⟩ <;>
    first
    | rfl
    | (cases c <;> rfl)

theorem statusOption_rt (o : StatusOption) : StatusOption.decode o.encode = .ok o := by
  rcases o with ⟨n, _ | c, _ | i⟩ <;>
    first
    | rfl
    | (cases c <;> rfl)

/-! ## The page-property variant catalog
(`objects/properties/page_property.py`) -/

theorem dateValue_rt (d : DateValue) : DateValue.decode d.encode = .ok d := by
  rcases d with ⟨s, _ | e, _ | tz⟩ <;> rfl

theorem uniqueIDData_rt (u : UniqueIDData) : UniqueIDData.decode u.encode = .ok u := by
  rcases u with ⟨n, _ | p⟩ <;> rfl

theorem verificationData_rt (v : VerificationData) :
    VerificationData.decode v.encode = .ok v := by
  rcases v with ⟨s, _ | vb, _ | d⟩ <;> cases s <;>
    first
    | rfl
    | (rcases d with ⟨ds, _ | de, _ | dtz⟩ <;> rfl)

theorem pageReference_rt (p : PageReference) : PageReference.decode p.encode = .ok p := rfl

theorem formulaData_rt (fd : FormulaData) : FormulaData.decode fd.encode = .ok fd := by
  cases fd with
  | date d => rcases d with ⟨s, _ | e, _ | tz⟩ <;> rfl
  | _ => rfl

theorem rollupData_rt (rd : RollupData) : RollupData.decode rd.encode = .ok rd := by
  cases rd with
  | date fn d => cases fn <;> rcases d with ⟨s, _ | e, _ | tz⟩ <;> rfl
  | number fn n => cases fn <;> rfl
  | array fn => cases fn <;> rfl
  | incomplete fn => cases fn <;> rfl
  | unsupported fn => cases fn <;> rfl

/-! Each property variant mirrors a `BasePageProperty` subclass: the
inherited optional `id`, the fixed `type` discriminator (represented by the
constructor of `PageProperty` and re-emitted on encode), and the payload
field whose name equals the tag. Encodes list fields in pydantic's dump
order: `id`, `type`, payload. -/

theorem decodeArr_map (dec : JSON → DecodeResult α) (enc : α → JSON)
    (h : ∀ a, dec (enc a) = .ok a) (l : List α) :
    decodeArr dec (.arr (l.map enc)) = .ok l := by
  simp [decodeArr, mapDecode_map dec enc h]

theorem rt_checkbox (p : CheckboxProperty) :
    decodePageProperty (PageProperty.encode (.checkbox p)) = .ok (.checkbox p) := by
  rcases p with ⟨_ | i, b⟩ <;> rfl

theorem rt_created_by (p : CreatedByProperty) :
    decodePageProperty (PageProperty.encode (.created_by p)) = .ok (.created_by p) := by
  rcases p with ⟨_ | i, u⟩ <;> rfl

theorem rt_created_time (p : CreatedTimeProperty) :
    decodePageProperty (PageProperty.encode (.created_time p)) =
      .ok (.created_time p) := by
  rcases p with ⟨_ | i, t⟩ <;> rfl

theorem rt_date (p : DateProperty) :
    decodePageProperty (PageProperty.encode (.date p)) = .ok (.date p) := by
  rcases p with ⟨_ | i, s, _ | e, _ | tz⟩ <;> rfl

theorem rt_email (p : EmailProperty) :
    decodePageProperty (PageProperty.encode (.email p)) = .ok (.email p) := by
  rcases p with ⟨_ | i, e⟩ <;> rfl

theorem rt_files (p : FilesProperty) :
    decodePageProperty (PageProperty.encode (.files p)) = .ok (.files p) := by
  rcases p with ⟨_ | i, l⟩ <;>
    simp [PageProperty.encode, FilesProperty.encode, decodePageProperty,
      propertyRegistry, assocLookup, FilesProperty.decodeFields, optField, reqField,
      encodeOpt, decodeArr_map _ _ fileObject_rt, decodeStr, Except.map,
      Except.bind, bind, pure, Except.pure]

theorem rt_last_edited_by (p : LastEditedByProperty) :
    decodePageProperty (PageProperty.encode (.last_edited_by p)) =
      .ok (.last_edited_by p) := by
  rcases p with ⟨_ | i, u⟩ <;> rfl

theorem rt_last_edited_time (p : LastEditedTimeProperty) :
    decodePageProperty (PageProperty.encode (.last_edited_time p)) =
      .ok (.last_edited_time p) := by
  rcases p with ⟨_ | i, t⟩ <;> rfl

theorem rt_multi_select (p : MultiSelectProperty) :
    decodePageProperty (PageProperty.encode (.multi_select p)) =
      .ok (.multi_select p) := by
  rcases p with ⟨_ | i, l⟩ <;>
    simp [PageProperty.encode, MultiSelectProperty.encode, decodePageProperty,
      propertyRegistry, assocLookup, MultiSelectProperty.decodeFields, optField,
      reqField, encodeOpt, decodeArr_map _ _ selectOption_rt, decodeStr,
      Except.map, Except.bind, bind, pure, Except.pure]

theorem rt_number (p : NumberProperty) :
    decodePageProperty (PageProperty.encode (.number p)) = .ok (.number p) := by
  rcases p with ⟨_ | i, n⟩ <;> rfl

theorem rt_people (p : PeopleProperty) :
    decodePageProperty (PageProperty.encode (.people p)) = .ok (.people p) := by
  rcases p with ⟨_ | i, l⟩ <;>
    simp [PageProperty.encode, PeopleProperty.encode, decodePageProperty,
      propertyRegistry, assocLookup, PeopleProperty.decodeFields, optField, reqField,
      encodeOpt, decodeArr_map _ _ userObject_rt, decodeStr, Except.map,
      Except.bind, bind, pure, Except.pure]

theorem rt_phone_number (p : PhoneNumberProperty) :
    decodePageProperty (PageProperty.encode (.phone_number p)) =
      .ok (.phone_number p) := by
  rcases p with ⟨_ | i, _ | n⟩ <;> rfl

theorem rt_rich_text (p : RichTextProperty) :
    decodePageProperty (PageProperty.encode (.rich_text p)) = .ok (.rich_text p) := by
  rcases p with ⟨_ | i, l⟩ <;>
    simp [PageProperty.encode, RichTextProperty.encode, decodePageProperty,
      propertyRegistry, assocLookup, RichTextProperty.decodeFields, optField, reqField,
      encodeOpt, decodeArr_map _ _ richTextObject_rt, decodeStr, Except.map,
      Except.bind, bind, pure, Except.pure]

theorem rt_select (p : SelectProperty) :
    decodePageProperty (PageProperty.encode (.select p)) = .ok (.select p) := by
  rcases p with ⟨_ | i, o⟩ <;>
    simp [PageProperty.encode, SelectProperty.encode, decodePageProperty,
      propertyRegistry, assocLookup, SelectProperty.decodeFields, optField, reqField,
      encodeOpt, selectOption_rt, decodeStr, Except.map, Except.bind, bind,
      pure, Except.pure]

theorem rt_status (p : StatusProperty) :
    decodePageProperty (PageProperty.encode (.status p)) = .ok (.status p) := by
  rcases p with ⟨_ | i, o⟩ <;>
    simp [PageProperty.encode, StatusProperty.encode, decodePageProperty,
      propertyRegistry, assocLookup, StatusProperty.decodeFields, optField, reqField,
      encodeOpt, statusOption_rt, decodeStr, Except.map, Except.bind, bind,
      pure, Except.pure]

theorem rt_title (p : TitleProperty) :
    decodePageProperty (PageProperty.encode (.title p)) = .ok (.title p) := by
  rcases p with ⟨_ | i, l⟩ <;>
    simp [PageProperty.encode, TitleProperty.encode, decodePageProperty,
      propertyRegistry, assocLookup, TitleProperty.decodeFields, optField, reqField,
      encodeOpt, decodeArr_map _ _ richTextObject_rt, decodeStr, Except.map,
      Except.bind, bind, pure, Except.pure]

theorem rt_url (p : URLProperty) :
    decodePageProperty (PageProperty.encode (.url p)) = .ok (.url p) := by
  rcases p with ⟨_ | i, u⟩ <;> rfl

theorem rt_formula (p : FormulaProperty) :
    decodePageProperty (PageProperty.encode (.formula p)) = .ok (.formula p) := by
  rcases p with ⟨_ | i, fd⟩ <;>
    simp [PageProperty.encode, FormulaProperty.encode, decodePageProperty,
      propertyRegistry, assocLookup, FormulaProperty.decodeFields, optField, reqField,
      encodeOpt, formulaData_rt, decodeStr, Except.map, Except.bind, bind,
      pure, Except.pure]

theorem rt_relation (p : RelationProperty) :
    decodePageProperty (PageProperty.encode (.relation p)) = .ok (.relation p) := by
  rcases p with ⟨_ | i, l, _ | hm⟩ <;>
    simp [PageProperty.encode, RelationProperty.encode, decodePageProperty,
      propertyRegistry, assocLookup, RelationProperty.decodeFields, optField, reqField,
      encodeOpt, decodeArr_map _ _ pageReference_rt, decodeStr, decodeBool,
      Except.map, Except.bind, bind, pure, Except.pure]

theorem rt_rollup (p : RollupProperty) :
    decodePageProperty (PageProperty.encode (.rollup p)) = .ok (.rollup p) := by
  rcases p with ⟨_ | i, rd⟩ <;>
    simp [PageProperty.encode, RollupProperty.encode, decodePageProperty,
      propertyRegistry, assocLookup, RollupProperty.decodeFields, optField, reqField,
      encodeOpt, rollupData_rt, decodeStr, Except.map, Except.bind, bind,
      pure, Except.pure]

theorem rt_unique_id (p : UniqueIDProperty) :
    decodePageProperty (PageProperty.encode (.unique_id p)) = .ok (.unique_id p) := by
  rcases p with ⟨_ | i, u⟩ <;>
    simp [PageProperty.encode, UniqueIDProperty.encode, decodePageProperty,
      propertyRegistry, assocLookup, UniqueIDProperty.decodeFields, optField, reqField,
      encodeOpt, uniqueIDData_rt, decodeStr, Except.map, Except.bind, bind,
      pure, Except.pure]

theorem rt_verification (p : VerificationProperty) :
    decodePageProperty (PageProperty.encode (.verification p)) =
      .ok (.verification p) := by
  rcases p with ⟨_ | i, v⟩ <;>
    simp [PageProperty.encode, VerificationProperty.encode, decodePageProperty,
      propertyRegistry, assocLookup, VerificationProperty.decodeFields, optField,
      reqField, encodeOpt, verificationData_rt, decodeStr, Except.map,
      Except.bind, bind, pure, Except.pure]

/-! ## The pagination envelope (`api/base.py`) -/

theorem assocLookup_eq_none (l : List (String × α)) (k : String)
    (h : k ∉ l.map Prod.fst) : assocLookup k l = none := by
  induction l with
  | nil => rfl
  | cons a rest ih =>
    simp only [List.map_cons, List.mem_cons] at h
    push_neg at h
    obtain ⟨h1, h2⟩ := h
    obtain ⟨k', v⟩ := a
    have hne : ¬k' = k := fun hk => h1 (by simp [hk])
    simp [assocLookup, hne, ih h2]

theorem decodeInt_encodeInt (n : Int) : decodeInt (encodeInt n) = .ok n := rfl

theorem rat_ofInt_den (n : Int) : (Rat.ofInt n).den = 1 := rfl

theorem rat_ofInt_num (n : Int) : (Rat.ofInt n).num = n := rfl

/-- C1: Round-trip: for every value `v` constructible as any variant of the
`PageProperty` discriminated union, decoding the JSON object produced by
encoding `v` yields a value equal to `v`. -/
theorem pageProperty_decode_encode (v : PageProperty) :
    decodePageProperty (PageProperty.encode v) = .ok v := by
  cases v with
  | checkbox p => exact rt_checkbox p
  | created_by p => exact rt_created_by p
  | created_time p => exact rt_created_time p
  | date p => exact rt_date p
  | email p => exact rt_email p
  | files p => exact rt_files p
  | last_edited_by p => exact rt_last_edited_by p
  | last_edited_time p => exact rt_last_edited_time p
  | multi_select p => exact rt_multi_select p
  | number p => exact rt_number p
  | people p => exact rt_people p
  | phone_number p => exact rt_phone_number p
  | rich_text p => exact rt_rich_text p
  | select p => exact rt_select p
  | status p => exact rt_status p
  | title p => exact rt_title p
  | url p => exact rt_url p
  | formula p => exact rt_formula p
  | relation p => exact rt_relation p
  | rollup p => exact rt_rollup p
  | unique_id p => exact rt_unique_id p
  | verification p => exact rt_verification p

/-- C8: Discriminator fidelity: for every constructible `PageProperty`
variant `v`, the encoded JSON object contains the key `"type"` whose value
is that variant's fixed tag. -/
theorem pageProperty_encode_discriminator (v : PageProperty) :
    jsonGet (PageProperty.encode v) "type" = some (.str v.tag) := by
  cases v <;> rfl

/-- C4: decoding `{"type": "checkbox", "checkbox": "not-a-bool"}` fails with
`ShapeMismatch` and `{"type": "mystery_kind"}` fails with `UnknownVariant`;
in general, an object whose `"type"` tag is not a registered discriminator
value decodes to `UnknownVariant`, and a registered tag whose required
payload field is absent (every variant except `phone_number`, whose payload
is optional, has a required payload field) decodes to `ShapeMismatch`. -/
theorem pageProperty_decode_rejection :
    decodePageProperty (.obj [("type", .str "checkbox"),
        ("checkbox", .str "not-a-bool")]) = .error .shapeMismatch ∧
    decodePageProperty (.obj [("type", .str "mystery_kind")]) =
      .error .unknownVariant ∧
    (∀ (f : List (String × JSON)) (t : String),
        assocLookup "type" f = some (.str t) → t ∉ pagePropertyTags →
        decodePageProperty (.obj f) = .error .unknownVariant) ∧
    (∀ t ∈ pagePropertyTags, t ≠ "phone_number" →
        decodePageProperty (.obj [("type", .str t)]) = .error .shapeMismatch) := by
  refine ⟨rfl, rfl, ?_, ?_⟩
  · intro f t ht hmem
    have hnone : assocLookup t propertyRegistry = none :=
      assocLookup_eq_none _ _ hmem
    simp [decodePageProperty, ht, hnone]
  · intro t ht hne
    fin_cases ht <;> first | rfl | (exact absurd rfl hne)

/-- Witness for C4: instantiates the unregistered-tag clause at the tag
`"emoji"` and the missing-required-field clause at the tag `"date"`. -/
theorem pageProperty_decode_rejection_witness :
    decodePageProperty (.obj [("id", .null), ("type", .str "emoji")]) =
      .error .unknownVariant ∧
    decodePageProperty (.obj [("type", .str "date")]) = .error .shapeMismatch := by
  constructor
  · exact pageProperty_decode_rejection.2.2.1 _ "emoji" rfl (by decide)
  · exact pageProperty_decode_rejection.2.2.2 "date" (by decide) (by decide)

/-- C6: a rollup property whose inner payload is tagged `"number"` with
`{"number": 3.5, "function": "sum"}` decodes to the number rollup case
carrying `3.5`; the same payload with inner tag `"date"` but no `date`
field fails with `ShapeMismatch`. -/
theorem rollup_nested_union :
    decodePageProperty (.obj [("type", .str "rollup"),
        ("rollup", .obj [("type", .str "number"), ("number", .num 3.5),
                         ("function", .str "sum")])]) =
      .ok (.rollup { id := none, rollup := .number .sum 3.5 }) ∧
    decodePageProperty (.obj [("type", .str "rollup"),
        ("rollup", .obj [("type", .str "date"), ("number", .num 3.5),
                         ("function", .str "sum")])]) = .error .shapeMismatch :=
  ⟨rfl, rfl⟩

/-- C7: `TitleProperty.new "Hello"` is structurally equal to the manually
constructed title property holding the single rich-text span
`{type: "text", text: {content: "Hello"}}` with no link, and therefore also
serializes identically. -/
theorem titleProperty_new_equiv :
    TitleProperty.new "Hello" =
      { id := none, title := [{ content := "Hello", link := none }] } ∧
    TitleProperty.encode (TitleProperty.new "Hello") =
      TitleProperty.encode
        { id := none, title := [{ content := "Hello", link := none }] } :=
  ⟨rfl, rfl⟩

/-- C2 counterexample: `DateProperty.new` called with an `end` timestamp
strictly before `start` does not fail — it returns a constructed
`DateProperty` whose date range ends before it starts (the source
classmethod performs no ordering check). -/
theorem dateProperty_new_acceptsReversedRange :
    DateProperty.new "2024-01-02T00:00:00Z" (some "2024-01-01T00:00:00Z") none =
      { id := none,
        date := { start := "2024-01-02T00:00:00Z",
                  «end» := some "2024-01-01T00:00:00Z", time_zone := none } } ∧
    Datetime.before "2024-01-01T00:00:00Z" "2024-01-02T00:00:00Z" :=
  ⟨rfl, by unfold Datetime.before; decide⟩

/-- C2 amended: `DateProperty.new` performs no ordering validation at all:
for every `start`, `end` and `time_zone` it returns the `DateProperty`
carrying exactly those values (even when `end` is before `start`), raising
no `InvariantViolation`. -/
theorem dateProperty_new_returnsGivenRange (s : Datetime) (e : Option Datetime)
    (tz : Option String) :
    DateProperty.new s e tz =
      { id := none, date := { start := s, «end» := e, time_zone := tz } } := rfl

/-- C9: the two same-named `CreateCommentRequest` models are not equivalent
decoders: on the empty JSON object, the `api/comments.py` model (all fields
optional) validates, while the `endpoints/comments.py` model rejects it
because its `rich_text` field is required. -/
theorem createCommentRequest_divergence :
    ApiComments.CreateCommentRequest.decode (.obj []) =
      .ok { start_cursor := none, page_size := none } ∧
    EndpointsComments.CreateCommentRequest.decode (.obj []) =
      .error .shapeMismatch :=
  ⟨rfl, rfl⟩

/-- C3 counterexample: a payload with `has_more = true` and
`next_cursor = null` **does** validate — the decoder imposes no relation
between the two fields, so the claimed invariant fails on this decoded
value. -/
theorem paginated_nullCursor_validates :
    decodeNotionPaginatedData decodeStr paginatedNullCursorPayload =
      .ok { results := [], next_cursor := none, has_more := true, type := .page,
            request_id := "6b0a7f1c-3a88-4bd9-9d51-4b0b5d43b6c1",
            next_url := none } := rfl

/-- C3 amended: decoding `NotionPaginatedData` enforces no dependency
between `has_more` and `next_cursor`: any envelope whose `results` decode,
with `has_more = true` and `next_cursor = null`, validates into a value
with `has_more = true` and `next_cursor = none`. -/
theorem paginated_no_cursor_constraint (dec : JSON → DecodeResult α)
    (xs : List JSON) (l : List α) (h : mapDecode dec xs = .ok l) (rid : String) :
    decodeNotionPaginatedData dec
      (.obj [("object", .str "list"), ("results", .arr xs), ("next_cursor", .null),
             ("has_more", .bool true), ("type", .str "page"),
             ("request_id", .str rid)]) =
    .ok { results := l, next_cursor := none, has_more := true, type := .page,
          request_id := rid, next_url := none } := by
  simp [decodeNotionPaginatedData, checkObjectLiteral, assocLookup, reqField,
    optField, decodeArr, h, decodeStr, decodeBool, decodePaginatedTypeLiteral,
    Except.map, Except.bind, bind, pure, Except.pure]

/-- Witness for C3's amended theorem at a one-element result list. -/
theorem paginated_no_cursor_constraint_witness :
    decodeNotionPaginatedData decodeStr
      (.obj [("object", .str "list"), ("results", .arr [.str "a"]),
             ("next_cursor", .null), ("has_more", .bool true),
             ("type", .str "page"), ("request_id", .str "req-1")]) =
    .ok { results := ["a"], next_cursor := none, has_more := true, type := .page,
          request_id := "req-1", next_url := none } :=
  paginated_no_cursor_constraint decodeStr [.str "a"] ["a"] rfl "req-1"

/-- C5: pagination fail-fast: if any element of the `results` list fails to
decode under the caller-supplied element decoder, the whole
`NotionPaginatedData` decode fails — no partial collection is returned. -/
theorem paginated_failfast (dec : JSON → DecodeResult α)
    (f : List (String × JSON)) (xs : List JSON) (x : JSON) (e : DecodeError)
    (hres : assocLookup "results" f = some (.arr xs)) (hx : x ∈ xs)
    (he : dec x = .error e) :
    ∃ e', decodeNotionPaginatedData dec (.obj f) = .error e' := by
  obtain ⟨e₁, h₁⟩ := mapDecode_error_of_mem dec hx he
  match hobj : checkObjectLiteral f with
  | .error e₀ =>
    exact ⟨e₀, by simp [decodeNotionPaginatedData, hobj, Except.bind, bind]⟩
  | .ok _ =>
    exact ⟨e₁, by
      simp [decodeNotionPaginatedData, hobj, reqField, hres, decodeArr, h₁,
        Except.bind, bind]⟩

/-- Witness for C5: a results list `[valid, valid, malformed]` under the
boolean element decoder fails as a whole. -/
theorem paginated_failfast_witness :
    ∃ e', decodeNotionPaginatedData decodeBool
      (.obj [("results", .arr [.bool true, .bool true, .str "bad"])]) =
        .error e' :=
  paginated_failfast decodeBool _ _ (.str "bad") .shapeMismatch rfl
    (List.Mem.tail _ (List.Mem.tail _ (List.Mem.head _))) rfl

/-- C10: for a request model carrying a `page_size` field
(`RetrieveCommentsRequest` from `endpoints/comments.py`, whose `page_size`
is the shared `PageSize` annotation of `api/base.py`), validation succeeds
iff `page_size` is absent or an integer `n` with `0 < n ≤ 100`; supplying
`0`, a negative value, or a value above `100` fails. -/
theorem retrieveComments_pageSize_bounds :
    (∀ n : Int,
      EndpointsComments.RetrieveCommentsRequest.decode
        (.obj [("block_id", .str "b1"), ("page_size", encodeInt n)]) =
        (if 0 < n ∧ n ≤ 100 then
          .ok { block_id := "b1", start_cursor := none, page_size := some n }
        else .error .shapeMismatch)) ∧
    EndpointsComments.RetrieveCommentsRequest.decode
      (.obj [("block_id", .str "b1")]) =
      .ok { block_id := "b1", start_cursor := none, page_size := none } ∧
    EndpointsComments.RetrieveCommentsRequest.decode
      (.obj [("block_id", .str "b1"), ("page_size", encodeInt 0)]) =
      .error .shapeMismatch ∧
    EndpointsComments.RetrieveCommentsRequest.decode
      (.obj [("block_id", .str "b1"), ("page_size", encodeInt (-5))]) =
      .error .shapeMismatch ∧
    EndpointsComments.RetrieveCommentsRequest.decode
      (.obj [("block_id", .str "b1"), ("page_size", encodeInt 101)]) =
      .error .shapeMismatch := by
  refine ⟨?_, rfl, rfl, rfl, rfl⟩
  intro n
  by_cases h : 0 < n ∧ n ≤ 100 <;>
    simp [EndpointsComments.RetrieveCommentsRequest.decode, reqField, optField,
      assocLookup, decodeStartCursorField, decodePageSizeField, encodeInt,
      decodeInt, rat_ofInt_den, rat_ofInt_num, decodeStr, h, Except.bind, bind,
      pure, Except.pure, Except.map]
